import Mathlib

/-!
Verification development for the waste-hunter repository.

The repository drives under-utilized cloud resources through a remediation
workflow: a scanner produces findings, a blast-radius assessor classifies the
risk of downsizing, an asynchronous pipeline rewrites IaC and opens a change
request, and a human approves or rejects the change.

This file gives a shallow embedding of the parts of the program that the
verified properties are about:

* the frontend TypeScript in `frontend/lib/backend.ts` and
  `frontend/lib/overview.ts` (types `BackendFinding`, `Trigger`, functions
  `resolveTriggerStatus`, `buildReasoningSteps`, `buildCopilotSummary`,
  `buildWorkflow`, `mapFindingToTrigger`, `fetchFinding`,
  `buildSavingsOverview`) is translated function by function;

* the Python backend (blast-radius checker, remediation pipeline, finding
  registry) is not part of the checked-out sources, only its documentation and
  its frontend callers are; those components are modelled from the design
  specification, and every such definition carries a doc comment starting
  with `Modelled from the spec:`.

JavaScript `number` values are modelled as rationals (`ℚ`); JavaScript
string falsiness (`""`, `null`, `undefined`) is made explicit through the
helpers `jsTruthy`, `jsOrStr` and `jsOrOpt`.
-/

namespace WasteHunter

/-! ## Shared enumerations (frontend/lib/data.ts)

`BlastRisk` and `TriggerStatus` are string-literal union types in
`frontend/lib/data.ts`; they are embedded as closed inductives.
-/

/-- The blast-risk levels, `"SAFE" | "LOW" | "MEDIUM" | "CRITICAL"`. -/
inductive BlastRisk where
  | SAFE
  | LOW
  | MEDIUM
  | CRITICAL
deriving DecidableEq, Repr

/-- Rendering of a `BlastRisk` back to its string literal. -/
def riskToString : BlastRisk → String
  | .SAFE => "SAFE"
  | .LOW => "LOW"
  | .MEDIUM => "MEDIUM"
  | .CRITICAL => "CRITICAL"

/-- The five lifecycle states presented by the UI,
`"detected" | "analyzing" | "pr_ready" | "approved" | "rejected"`. -/
inductive TriggerStatus where
  | detected
  | analyzing
  | pr_ready
  | approved
  | rejected
deriving DecidableEq, Repr

/-- The change-request status reported by the backend,
`"open" | "merged" | "closed"` (constructor `opened` because `open` is a
Lean keyword). -/
inductive PrStatus where
  | opened
  | merged
  | closed
deriving DecidableEq, Repr

/-! ## JavaScript value helpers

The TypeScript code relies on JavaScript truthiness: `undefined`, `null`
and `""` are falsy, every other string is truthy.  Optional strings are
embedded as `Option String` and the helpers below spell the truthiness
tests out.
-/

/-- Truthiness of an optional string: present and non-empty. -/
def jsTruthy : Option String → Bool
  | some s => s ≠ ""
  | none => false

/-- The expression `a || d` where the result is used as a string. -/
def jsOrStr : Option String → String → String
  | some s, d => if s = "" then d else s
  | none, d => d

/-- The expression `a || b` where the result stays optional (for example
`finding.pr_url || null`). -/
def jsOrOpt : Option String → Option String → Option String
  | some s, b => if s = "" then b else some s
  | none, b => b

/-! ## BackendFinding (frontend/lib/backend.ts)

The wire shape of one finding as served by the backend.  Optional fields of
the TypeScript interface become `Option` fields; `number` becomes `ℚ`.
-/

/-- The `BackendFinding` interface from `frontend/lib/backend.ts`. -/
structure BackendFinding where
  resource_id : String
  name : String
  service : Option String := none
  team : Option String := none
  owner : Option String := none
  region : Option String := none
  current_type : String
  recommended_type : String
  status : Option String := none
  severity : Option String := none
  confidence : Option String := none
  idle_since : Option String := none
  last_active : Option String := none
  current_cost_usd : Option ℚ := none
  projected_cost_usd : Option ℚ := none
  monthly_savings_usd : Option ℚ := none
  annual_savings_usd : Option ℚ := none
  savings_pct : Option ℚ := none
  cpu_avg_pct : Option ℚ := none
  cpu_p95_pct : Option ℚ := none
  memory_avg_pct : Option ℚ := none
  memory_p95_pct : Option ℚ := none
  blast_risk : Option BlastRisk := none
  blast_reasons : Option (List String) := none
  evidence : Option (List String) := none
  action : Option String := none
  pr_url : Option String := none
  pr_number : Option ℕ := none
  pr_is_draft : Option Bool := none
  pr_status : Option PrStatus := none
  pr_branch : Option String := none
  files_changed : Option (List String) := none
  scanned_at : Option String := none
deriving DecidableEq, Repr

/-! ## Trigger and its builders (frontend/lib/backend.ts, frontend/lib/data.ts) -/

/-- One reasoning entry shown in the AI-analysis panel. -/
structure ReasoningStep where
  title : String
  detail : String
deriving DecidableEq, Repr

/-- One IaC diff shown in the code panel. -/
structure CodeChange where
  file : String
  language : String
  diff : String
deriving DecidableEq, Repr

/-- Status of one workflow step, `"complete" | "active" | "pending" | "failed"`. -/
inductive WorkflowStepStatus where
  | complete
  | active
  | pending
  | failed
deriving DecidableEq, Repr

/-- One of the five workflow steps rendered by the UI. -/
structure WorkflowStep where
  id : String
  label : String
  status : WorkflowStepStatus
  detail : Option String := none
deriving DecidableEq, Repr

/-- Aggregate workflow status, `"idle" | "running" | "waiting" | "approved" | "rejected"`. -/
inductive WorkflowStateStatus where
  | idle
  | running
  | waiting
  | approved
  | rejected
deriving DecidableEq, Repr

/-- The `WorkflowState` shown on the trigger detail page. -/
structure WorkflowState where
  label : String
  status : WorkflowStateStatus
  steps : List WorkflowStep
  lastUpdated : Option String := none
deriving DecidableEq, Repr

/-- The `Trigger` shape consumed by the UI (camelCase view of a finding). -/
structure Trigger where
  id : String
  resourceName : String
  resourceId : String
  service : String
  region : String
  currentInstance : String
  recommendedInstance : String
  monthlySavings : ℤ
  yearlySavings : ℤ
  blastRisk : BlastRisk
  status : TriggerStatus
  detectedAt : String
  aiReasoning : List ReasoningStep
  codeChanges : List CodeChange
  prUrl : Option String
  prTitle : String
  copilotSummary : String
  prStatus : Option PrStatus
  workflow : WorkflowState
  action : Option String
  cpuAvgPct : Option ℚ
  cpuP95Pct : Option ℚ
  memoryAvgPct : Option ℚ
  memoryP95Pct : Option ℚ
  currentCostUsd : Option ℚ
  projectedCostUsd : Option ℚ
  savingsPct : Option ℚ
deriving DecidableEq, Repr

/-- `resolveTriggerStatus` from `frontend/lib/backend.ts`: derives the
lifecycle state the UI presents from the raw finding. -/
def resolveTriggerStatus (finding : BackendFinding) : TriggerStatus :=
  if finding.pr_status = some PrStatus.merged then .approved
  else if finding.pr_status = some PrStatus.closed then .rejected
  else if jsTruthy finding.pr_url then .pr_ready
  else if finding.status = some "analyzing" then .analyzing
  else .detected

/-- `buildReasoningSteps` from `frontend/lib/backend.ts`. -/
def buildReasoningSteps (finding : BackendFinding) : List ReasoningStep :=
  let evidence := (finding.evidence.getD []).filter (fun s => decide (s ≠ ""))
  let steps₁ : List ReasoningStep :=
    if evidence ≠ [] then
      [⟨"Telemetry evidence", String.intercalate " " evidence⟩]
    else []
  let blast := (finding.blast_reasons.getD []).filter (fun s => decide (s ≠ ""))
  let steps₂ : List ReasoningStep :=
    if blast ≠ [] then
      [⟨"Blast radius check", String.intercalate " " blast⟩]
    else
      match finding.blast_risk with
      | some r => [⟨"Blast radius check", "Risk level assessed as " ++ riskToString r ++ "."⟩]
      | none => []
  steps₁ ++ steps₂ ++
    [⟨"Recommendation",
      "Downsize from " ++ finding.current_type ++ " to " ++ finding.recommended_type ++
        " to capture projected savings."⟩]

/-- Model of JavaScript number-to-string conversion used inside template
literals; the verified properties do not depend on its exact output. -/
def jsNumToString (q : ℚ) : String := toString q

/-- `buildCopilotSummary` from `frontend/lib/backend.ts`: the one-line
summary handed to the Copilot chat, with the blast risk defaulted to
`"MEDIUM"` when absent. -/
def buildCopilotSummary (finding : BackendFinding) : String :=
  let monthly : ℚ := finding.monthly_savings_usd.getD 0
  let risk : BlastRisk := finding.blast_risk.getD .MEDIUM
  (finding.name ++ " appears idle. Recommended downsize from " ++
      finding.current_type ++ " to " ++ finding.recommended_type ++
      " saves ~$" ++ jsNumToString monthly ++ "/mo. ") ++
    ("Blast risk is " ++ riskToString risk ++ ".")

/-- `buildWorkflow` from `frontend/lib/backend.ts`. -/
def buildWorkflow (finding : BackendFinding) : WorkflowState :=
  let prStatus := finding.pr_status
  let prCreated := jsTruthy finding.pr_url
  let approvalStatus : WorkflowStepStatus :=
    if prStatus = some PrStatus.merged then .complete
    else if prStatus = some PrStatus.closed then .failed
    else if prStatus = some PrStatus.opened then .active
    else .pending
  let steps : List WorkflowStep :=
    [ { id := "scan", label := "Idle scan", status := .complete,
        detail := if jsTruthy finding.scanned_at then
            some ("Scanned " ++ finding.scanned_at.getD "")
          else none },
      { id := "blast", label := "Blast radius",
        status := if finding.blast_risk.isSome then .complete else .pending,
        detail := finding.blast_risk.map (fun r => "Risk " ++ riskToString r) },
      { id := "rewrite", label := "IaC rewrite",
        status := if prCreated then .complete else .active,
        detail := if jsTruthy finding.action then
            some ("Action " ++ finding.action.getD "")
          else none },
      { id := "pr", label := "PR created",
        status := if prCreated then .complete else .pending,
        detail := if jsTruthy finding.pr_url then some "PR is available"
          else some "Waiting on PR" },
      { id := "approval", label := "Approval", status := approvalStatus,
        detail := some
          (if prStatus = some PrStatus.merged then "Merged"
           else if prStatus = some PrStatus.closed then "Closed"
           else if prStatus = some PrStatus.opened then "Awaiting review"
           else "Pending") } ]
  let label :=
    if prStatus = some PrStatus.merged then "Approved"
    else if prStatus = some PrStatus.closed then "Rejected"
    else if prCreated then "Awaiting approval"
    else "Preparing PR"
  let status : WorkflowStateStatus :=
    if prStatus = some PrStatus.merged then .approved
    else if prStatus = some PrStatus.closed then .rejected
    else if prCreated then .waiting
    else .running
  { label := label, status := status, steps := steps,
    lastUpdated := jsOrOpt finding.scanned_at finding.idle_since }

/-- `mapFindingToTrigger` from `frontend/lib/backend.ts`.  The impure
`new Date().toISOString()` fallback is passed in as the `now` argument. -/
def mapFindingToTrigger (finding : BackendFinding) (now : String) : Trigger :=
  let monthly : ℚ := finding.monthly_savings_usd.getD 0
  let yearly : ℚ := finding.annual_savings_usd.getD (monthly * 12)
  let prTitle := "chore: downsize " ++ finding.name ++ " from " ++
    finding.current_type ++ " to " ++ finding.recommended_type
  { id := finding.resource_id
    resourceName := finding.name
    resourceId := finding.resource_id
    service := jsOrStr finding.service "EC2"
    region := jsOrStr finding.region "unknown"
    currentInstance := finding.current_type
    recommendedInstance := finding.recommended_type
    monthlySavings := round monthly
    yearlySavings := round yearly
    blastRisk := finding.blast_risk.getD .MEDIUM
    status := resolveTriggerStatus finding
    detectedAt := jsOrStr finding.scanned_at (jsOrStr finding.idle_since now)
    aiReasoning := buildReasoningSteps finding
    codeChanges := []
    prUrl := jsOrOpt finding.pr_url none
    prTitle := prTitle
    copilotSummary := buildCopilotSummary finding
    prStatus := finding.pr_status
    workflow := buildWorkflow finding
    action := finding.action
    cpuAvgPct := finding.cpu_avg_pct
    cpuP95Pct := finding.cpu_p95_pct
    memoryAvgPct := finding.memory_avg_pct
    memoryP95Pct := finding.memory_p95_pct
    currentCostUsd := finding.current_cost_usd
    projectedCostUsd := finding.projected_cost_usd
    savingsPct := finding.savings_pct }

/-! ## fetchFinding (frontend/lib/backend.ts)

`fetchFinding` performs one HTTP GET; the response is embedded as a record
carrying the status code, the body text read by `response.text()` and the
payload produced by `response.json()`.
-/

/-- One HTTP response as observed by `fetchFinding`. -/
structure HttpResponse where
  status : ℕ
  body : String
  payload : BackendFinding
deriving DecidableEq, Repr

/-- `response.ok` per the Fetch standard: status in the range 200–299. -/
def responseOk (r : HttpResponse) : Prop := 200 ≤ r.status ∧ r.status ≤ 299

instance (r : HttpResponse) : Decidable (responseOk r) :=
  inferInstanceAs (Decidable (200 ≤ r.status ∧ r.status ≤ 299))

/-- `fetchFinding` from `frontend/lib/backend.ts`: `404` yields `null`, any
other non-2xx response throws an error carrying the body text (with a
fallback message when the body is empty), and a 2xx response yields the
parsed finding. -/
def fetchFinding (r : HttpResponse) : Except String (Option BackendFinding) :=
  if r.status = 404 then Except.ok none
  else if ¬ responseOk r then
    Except.error (if r.body = "" then "Request failed: " ++ toString r.status else r.body)
  else Except.ok (some r.payload)

/-! ## Savings overview (frontend/lib/overview.ts)

`buildSavingsOverview` merges the live triggers into fixed historical
baselines before rendering the analytics section.
-/

/-- One month of the savings history chart. -/
structure HistoryEntry where
  month : String
  detected : ℤ
  approved : ℤ
  savings : ℤ
deriving DecidableEq, Repr

/-- The `SavingsOverview` record consumed by the analytics section. -/
structure SavingsOverview where
  totalMonthlySavings : ℤ
  totalYearlySavings : ℤ
  totalFindings : ℕ
  approvedCount : ℕ
  rejectedCount : ℕ
  pendingCount : ℕ
  savingsHistory : List HistoryEntry
deriving DecidableEq, Repr

/-- Baseline monthly savings credited from before the current session. -/
def BASELINE_MONTHLY_SAVINGS : ℤ := 1824

/-- Baseline yearly savings credited from before the current session. -/
def BASELINE_YEARLY_SAVINGS : ℤ := 21888

/-- Baseline count of approved findings from before the current session. -/
def BASELINE_APPROVED : ℕ := 14

/-- Baseline count of total findings from before the current session. -/
def BASELINE_TOTAL : ℕ := 19

/-- The static `SAVINGS_HISTORY` table from `frontend/lib/overview.ts`. -/
def SAVINGS_HISTORY : List HistoryEntry :=
  [ ⟨"Sep", 3, 2, 310⟩,
    ⟨"Oct", 4, 3, 580⟩,
    ⟨"Nov", 5, 4, 870⟩,
    ⟨"Dec", 4, 3, 1120⟩,
    ⟨"Jan", 6, 5, 1540⟩,
    ⟨"Feb", 0, 0, 0⟩ ]

/-- `buildSavingsOverview` from `frontend/lib/overview.ts`: sums live
savings, counts approved/rejected/pending triggers, and adds the historical
baselines; live data is merged into the last history entry. -/
def buildSavingsOverview (triggers : List Trigger) : SavingsOverview :=
  let liveMonthlySavings := (triggers.map (fun t => t.monthlySavings)).sum
  let liveYearlySavings := (triggers.map (fun t => t.yearlySavings)).sum
  let liveApproved :=
    (triggers.filter (fun t => decide (t.status = .approved))).length
  let liveRejected :=
    (triggers.filter (fun t => decide (t.status = .rejected))).length
  let livePending :=
    (triggers.filter
      (fun t => decide (t.status ≠ .approved ∧ t.status ≠ .rejected))).length
  let history := SAVINGS_HISTORY.mapIdx (fun i e =>
    if i = SAVINGS_HISTORY.length - 1 then
      { e with
        detected := e.detected + (triggers.length : ℤ),
        approved := e.approved + (liveApproved : ℤ),
        savings := e.savings + liveMonthlySavings }
    else e)
  { totalMonthlySavings := BASELINE_MONTHLY_SAVINGS + liveMonthlySavings
    totalYearlySavings := BASELINE_YEARLY_SAVINGS + liveYearlySavings
    totalFindings := BASELINE_TOTAL + triggers.length
    approvedCount := BASELINE_APPROVED + liveApproved
    rejectedCount := liveRejected
    pendingCount := livePending
    savingsHistory := history }

/-! ## Spec-modelled backend components

The Python backend (`backend/graph/blast_radius.py`, `backend/api/server.py`,
`backend/github_pr/pr_creator.py`) is absent from the checked-out sources;
only its documentation (`context.md`) and its frontend callers are present.
The definitions below model those components from the design specification
(§3, §4.2, §4.3, §4.4); each carries a `Modelled from the spec:` doc comment.
-/

/-- Criticality of a resource node in the dependency graph: LOW, MEDIUM or
HIGH. -/
inductive Criticality where
  | LOW
  | MEDIUM
  | HIGH
deriving DecidableEq, Repr

/-- Rendering of a `Criticality` back to its string literal. -/
def critToString : Criticality → String
  | .LOW => "LOW"
  | .MEDIUM => "MEDIUM"
  | .HIGH => "HIGH"

/-- Modelled from the spec: one dependent node returned by
`getNeighborhood(resource_id, 2)`, annotated with its hop distance and
criticality (§4.1); the graph store itself is not in the sources. -/
structure DepNode where
  id : String
  type : String
  hops : ℕ
  criticality : Criticality
deriving DecidableEq, Repr

/-- Modelled from the spec: a `DecisionMemory` record of a past human
rejection (§3).  `superseded` records whether a later approval of the same
finding stops the rejection from being surfaced as current. -/
structure DecisionMemory where
  resource_id : String
  action : String
  rejected_by : String
  reason : String
  rejected_at : ℕ
  status : String
  superseded : Bool
deriving DecidableEq, Repr

/-- A rejection is active (unresolved) when its status is REJECTED and no
later approval supersedes it. -/
def activeRejection (r : DecisionMemory) : Bool :=
  decide (r.status = "REJECTED") && !r.superseded

/-- The `BlastRadiusResult` record documented in `context.md`:
risk level, ordered reasons, and the dependency list. -/
structure BlastRadiusResult where
  risk : BlastRisk
  reasons : List String
  dependencies : List DepNode
deriving DecidableEq, Repr

namespace BlastRadiusChecker

/-- One dependency-derived reason entry, naming the dependency, its type,
hop distance and criticality (spec §4.2 and the §8 example
`"db1 (connects_to, 1 hop, HIGH)"`). -/
def depReason (d : DepNode) : String :=
  d.id ++ " (" ++ d.type ++ ", " ++ toString d.hops ++ " hop, " ++
    critToString d.criticality ++ ")"

/-- One memory-derived reason entry, naming who rejected, when, and why
(spec §4.2). -/
def rejectionReason (r : DecisionMemory) : String :=
  "Rejected by " ++ r.rejected_by ++ " at " ++ toString r.rejected_at ++
    ": " ++ r.reason

/-- Modelled from the spec: `BlastRadiusChecker.check`
(`backend/graph/blast_radius.py`, not in the sources).  `deps` is the
2-hop neighborhood of the target resource and `memory` its DecisionMemory
records.  Classification (§4.2): a HIGH dependency or an active rejection
is CRITICAL; otherwise no dependencies is SAFE, a MEDIUM dependency is
MEDIUM, and all-LOW dependencies are LOW.  Reasons list HIGH and MEDIUM
dependencies first, then active rejections (§4.2, §8). -/
def check (deps : List DepNode) (memory : List DecisionMemory) :
    BlastRadiusResult :=
  let active := memory.filter activeRejection
  let highs := deps.filter (fun d => decide (d.criticality = .HIGH))
  let meds := deps.filter (fun d => decide (d.criticality = .MEDIUM))
  let risk : BlastRisk :=
    if highs ≠ [] ∨ active ≠ [] then .CRITICAL
    else if deps = [] then .SAFE
    else if meds ≠ [] then .MEDIUM
    else .LOW
  { risk := risk
    reasons := highs.map depReason ++ meds.map depReason ++
      active.map rejectionReason
    dependencies := deps }

end BlastRadiusChecker

/-- Modelled from the spec: the change-request reference held by a Finding
(§3): id, url, draft flag, merge/close status, plus the branch the PR
creator named after the resource. -/
structure ChangeRequest where
  number : ℕ
  url : String
  branch : String
  draft : Bool
  state : PrStatus
deriving DecidableEq, Repr

/-- Modelled from the spec: the backend `Finding` record (§3) owned by the
Finding Registry; its lifecycle states coincide with the five states the
UI presents. -/
structure Finding where
  resource_id : String
  current_spec : String
  recommended_spec : String
  blast_risk : BlastRisk
  blast_reasons : List String
  lifecycle_status : TriggerStatus
  change_request : Option ChangeRequest
deriving DecidableEq, Repr

namespace PRCreator

/-- The branch name is derived from the resource id alone, so retries reuse
the same branch (`waste-hunter/downsize-{resource_id}`). -/
def branchFor (rid : String) : String := "waste-hunter/downsize-" ++ rid

/-- Modelled from the spec: `PRCreator` (`backend/github_pr/pr_creator.py`,
not in the sources) opens the change request during the committing step;
it is marked draft exactly when `blast_risk == CRITICAL`, otherwise opened
normally (§4.3, `context.md`).  `number` is the PR number assigned by the
source-control host. -/
def create_pr (f : Finding) (number : ℕ) : ChangeRequest :=
  { number := number
    url := "https://github.com/darshlukkad/waste-hunter-dummy/pull/" ++
      toString number
    branch := branchFor f.resource_id
    draft := decide (f.blast_risk = .CRITICAL)
    state := .opened }

end PRCreator

/-- The pipeline step tags, `"seeding" | "reading" | "rewriting" |
"committing" | "done" | "error"` (plus the idle/queued tags only the
frontend `PrProgress` type mentions are omitted: the backend run never
reports them). -/
inductive PipeStep where
  | seeding
  | reading
  | rewriting
  | committing
  | done
  | error
deriving DecidableEq, Repr

/-- Modelled from the spec: the `PipelineProgress` record (§3), keyed by
resource id, read by polling observers. -/
structure PipelineProgress where
  step : PipeStep
  done : Bool
  error : Option String
  change_request_ref : Option ChangeRequest
deriving DecidableEq, Repr

/-- Modelled from the spec: the outcome of each external effect of one
pipeline run (§4.3); `none` is success and `some cause` is a failure with
its human-readable cause (a rewrite timeout, a commit error, ...). -/
structure StepOutcomes where
  seed : Option String
  read : Option String
  rewrite : Option String
  commit : Option String
deriving DecidableEq, Repr

/-- Whether any step of the run fails. -/
def hasFailure (env : StepOutcomes) : Bool :=
  env.seed.isSome || env.read.isSome || env.rewrite.isSome || env.commit.isSome

namespace RemediationPipeline

/-- The progress record written when a step fails: the run transitions to
`error`, `done` is set and the cause is recorded (§4.3). -/
def failProgress (cause : String) : PipelineProgress :=
  { step := .error, done := true, error := some cause,
    change_request_ref := none }

/-- Modelled from the spec: one Remediation Pipeline run (§4.3,
`backend/api/server.py` not in the sources).  Steps execute in order
seeding → reading → rewriting → committing; the first failure aborts the
run with `failProgress` and leaves the Finding untouched; on success the
change request is opened via `PRCreator.create_pr` and the Finding moves
to `pr_ready`. -/
def run (env : StepOutcomes) (f : Finding) (number : ℕ) :
    PipelineProgress × Finding :=
  match env.seed with
  | some e => (failProgress e, f)
  | none =>
    match env.read with
    | some e => (failProgress e, f)
    | none =>
      match env.rewrite with
      | some e => (failProgress e, f)
      | none =>
        match env.commit with
        | some e => (failProgress e, f)
        | none =>
          let cr := PRCreator.create_pr f number
          ({ step := .done, done := true, error := none,
             change_request_ref := some cr },
           { f with lifecycle_status := .pr_ready, change_request := some cr })

end RemediationPipeline

/-- Modelled from the spec: the error taxonomy of the API layer (§7); only
the variants the verified properties mention are carried. -/
inductive ApiError where
  | InvalidTransition
  | NotFound
  | DependencyUnavailable
deriving DecidableEq, Repr

namespace FindingRegistry

/-- The progress entry written when a fresh pipeline run starts. -/
def initialProgress : PipelineProgress :=
  { step := .seeding, done := false, error := none, change_request_ref := none }

/-- Modelled from the spec: starting the pipeline for a resource (§4.3,
§5).  If a non-`done` progress entry already exists for the resource id
the call is a no-op returning the existing entry; a finished entry is
replaced and a missing one created. -/
def startPipeline (registry : List (String × PipelineProgress)) (rid : String) :
    PipelineProgress × List (String × PipelineProgress) :=
  match registry.lookup rid with
  | some p =>
    if p.done then
      (initialProgress,
        (rid, initialProgress) :: registry.eraseP (fun e => e.1 == rid))
    else (p, registry)
  | none => (initialProgress, (rid, initialProgress) :: registry)

/-- Modelled from the spec: the per-resource state the Finding Registry
serializes: the Finding, its DecisionMemory history, and the current
timestamp used for new records. -/
structure RegistryState where
  finding : Finding
  memory : List DecisionMemory
  now : ℕ
deriving DecidableEq, Repr

/-- Modelled from the spec: `approve(resource_id)` (§4.4,
`POST /api/approve/{resource_id}`): only legal from `pr_ready`; merges the
change request and moves the Finding to `approved`; otherwise fails with
`InvalidTransition` and no state is produced. -/
def approve (st : RegistryState) : Except ApiError RegistryState :=
  if st.finding.lifecycle_status = .pr_ready then
    Except.ok
      { st with
        finding :=
          { st.finding with
            lifecycle_status := .approved
            change_request :=
              st.finding.change_request.map
                (fun cr => { cr with state := .merged }) } }
  else Except.error .InvalidTransition

/-- The DecisionMemory record written by a rejection. -/
def mkRejection (f : Finding) (reason rejectedBy : String) (now : ℕ) :
    DecisionMemory :=
  { resource_id := f.resource_id
    action := "downsize " ++ f.current_spec ++ " to " ++ f.recommended_spec
    rejected_by := rejectedBy
    reason := reason
    rejected_at := now
    status := "REJECTED"
    superseded := false }

/-- Modelled from the spec: `reject(resource_id, reason, rejected_by)`
(§4.4, `POST /api/reject/{resource_id}`): only legal from `pr_ready`;
closes the change request, appends exactly one DecisionMemory record and
moves the Finding to `rejected`; otherwise fails with `InvalidTransition`
and no state is produced. -/
def reject (st : RegistryState) (reason rejectedBy : String) :
    Except ApiError RegistryState :=
  if st.finding.lifecycle_status = .pr_ready then
    Except.ok
      { finding :=
          { st.finding with
            lifecycle_status := .rejected
            change_request :=
              st.finding.change_request.map
                (fun cr => { cr with state := .closed }) }
        memory := mkRejection st.finding reason rejectedBy st.now :: st.memory
        now := st.now }
  else Except.error .InvalidTransition

end FindingRegistry

/-! ## Concrete example values

Small concrete inputs used to witness the verified properties on
executable data.
-/

/-- A finding whose change request has been merged. -/
def mergedFinding : BackendFinding :=
  { resource_id := "i-029da6afe1826bbba", name := "wastehunter-rec-engine",
    current_type := "t3.micro", recommended_type := "t3.nano",
    blast_risk := some .LOW,
    pr_url := some "https://github.com/darshlukkad/waste-hunter-dummy/pull/1",
    pr_status := some .merged }

/-- A finding with an open change request. -/
def openPrFinding : BackendFinding :=
  { resource_id := "i-030a14838974430e7", name := "wastehunter-rec-engine",
    current_type := "t3.micro", recommended_type := "t3.nano",
    blast_risk := some .LOW,
    pr_url := some "https://github.com/darshlukkad/waste-hunter-dummy/pull/2",
    pr_status := some .opened }

/-- A finding still under assessment. -/
def analyzingFinding : BackendFinding :=
  { resource_id := "i-03e3a5ce0a14eaa82", name := "wastehunter-rec-engine",
    current_type := "t3.micro", recommended_type := "t3.nano",
    status := some "analyzing" }

/-- A finding whose `blast_risk` field is absent. -/
def noRiskFinding : BackendFinding :=
  { resource_id := "i-0aaaaaaaaaaaaaaaa", name := "wastehunter-rec-engine",
    current_type := "t3.small", recommended_type := "t3.micro" }

/-- A 404 response for an unknown resource id. -/
def notFoundResponse : HttpResponse :=
  { status := 404, body := "finding not found", payload := noRiskFinding }

/-- A 500 response carrying a detail body. -/
def serverErrorResponse : HttpResponse :=
  { status := 500, body := "boom", payload := noRiskFinding }

/-- A successful 200 response. -/
def okResponse : HttpResponse :=
  { status := 200, body := "", payload := mergedFinding }

/-- A HIGH-criticality database dependency one hop away. -/
def db1 : DepNode :=
  { id := "db1", type := "connects_to", hops := 1, criticality := .HIGH }

/-- A MEDIUM-criticality lambda dependency two hops away. -/
def lam1 : DepNode :=
  { id := "lambda-recommendation-refresh", type := "reads_from", hops := 2,
    criticality := .MEDIUM }

/-- An active (unsuperseded) rejection record. -/
def aliceRejection : DecisionMemory :=
  { resource_id := "r3", action := "downsize t3.micro to t3.nano",
    rejected_by := "alice", reason := "peak traffic", rejected_at := 100,
    status := "REJECTED", superseded := false }

/-- A backend finding in `pr_ready` state with an open change request. -/
def readyFinding : Finding :=
  { resource_id := "i-029da6afe1826bbba", current_spec := "t3.micro",
    recommended_spec := "t3.nano", blast_risk := .LOW, blast_reasons := [],
    lifecycle_status := .pr_ready,
    change_request := some (PRCreator.create_pr
      { resource_id := "i-029da6afe1826bbba", current_spec := "t3.micro",
        recommended_spec := "t3.nano", blast_risk := .LOW, blast_reasons := [],
        lifecycle_status := .analyzing, change_request := none } 1) }

/-- A backend finding still in `detected` state. -/
def detectedFinding : Finding :=
  { resource_id := "i-030a14838974430e7", current_spec := "t3.micro",
    recommended_spec := "t3.nano", blast_risk := .SAFE, blast_reasons := [],
    lifecycle_status := .detected, change_request := none }

/-- A backend finding whose assessment classified the risk CRITICAL. -/
def criticalFinding : Finding :=
  { resource_id := "i-0a1b2c3d4e5f67890", current_spec := "m5.4xlarge",
    recommended_spec := "m5.xlarge", blast_risk := .CRITICAL,
    blast_reasons := [], lifecycle_status := .analyzing,
    change_request := none }

/-- A registry state holding `readyFinding`. -/
def readyState : FindingRegistry.RegistryState :=
  { finding := readyFinding, memory := [], now := 200 }

/-- A registry state holding `detectedFinding`. -/
def detectedState : FindingRegistry.RegistryState :=
  { finding := detectedFinding, memory := [], now := 200 }

/-- A progress entry for a run that is still in flight. -/
def runningProgress : PipelineProgress :=
  { step := .rewriting, done := false, error := none,
    change_request_ref := none }

/-- A step environment where the rewrite call times out. -/
def rewriteTimeout : StepOutcomes :=
  { seed := none, read := none, rewrite := some "MiniMax rewrite timed out",
    commit := none }

/-! ## Helper lemmas -/

/-- Splitting a list by two mutually exclusive decidable predicates and
their common complement partitions its length. -/
theorem filter_three_way {α : Type} (p q : α → Prop) [DecidablePred p]
    [DecidablePred q] (l : List α) (hpq : ∀ a, ¬ (p a ∧ q a)) :
    (l.filter (fun a => decide (p a))).length +
      (l.filter (fun a => decide (q a))).length +
      (l.filter (fun a => decide (¬ p a ∧ ¬ q a))).length = l.length := by
  induction l with
  | nil => simp
  | cons a t ih =>
    by_cases hp : p a
    · have hq : ¬ q a := fun hq => hpq a ⟨hp, hq⟩
      rw [List.filter_cons, List.filter_cons, List.filter_cons,
        decide_eq_true hp, decide_eq_false hq,
        decide_eq_false (show ¬ (¬ p a ∧ ¬ q a) from fun h => h.1 hp)]
      simp only [if_true, if_false, List.length_cons]
      simp at ih ⊢
      omega
    · by_cases hq : q a
      · rw [List.filter_cons, List.filter_cons, List.filter_cons,
          decide_eq_false hp, decide_eq_true hq,
          decide_eq_false (show ¬ (¬ p a ∧ ¬ q a) from fun h => h.2 hq)]
        simp only [if_true, if_false, List.length_cons]
        simp at ih ⊢
        omega
      · rw [List.filter_cons, List.filter_cons, List.filter_cons,
          decide_eq_false hp, decide_eq_false hq,
          decide_eq_true (show ¬ p a ∧ ¬ q a from ⟨hp, hq⟩)]
        simp only [if_true, if_false, List.length_cons]
        simp at ih ⊢
        omega

/-- A non-empty filter exposes a witness of the predicate at its head. -/
theorem head_filter_mem {α : Type} (p : α → Bool) (l : List α)
    (h : l.filter p ≠ []) :
    ∃ x ∈ l, p x = true ∧ (l.filter p).head? = some x := by
  cases hf : l.filter p with
  | nil => exact absurd hf h
  | cons a t =>
    have ha : a ∈ l.filter p := by rw [hf]; exact List.mem_cons_self a t
    have hm := List.mem_filter.mp ha
    exact ⟨a, hm.1, hm.2, rfl⟩

/-- A failing pipeline run reports the failure and leaves the Finding
untouched. -/
theorem run_failure_cases (env : StepOutcomes) (f : Finding) (n : ℕ)
    (h : hasFailure env = true) :
    (∃ e, (RemediationPipeline.run env f n).1 =
        RemediationPipeline.failProgress e) ∧
    (RemediationPipeline.run env f n).2 = f := by
  unfold RemediationPipeline.run
  cases hseed : env.seed with
  | some e => exact ⟨⟨e, rfl⟩, rfl⟩
  | none =>
    cases hread : env.read with
    | some e => exact ⟨⟨e, rfl⟩, rfl⟩
    | none =>
      cases hrw : env.rewrite with
      | some e => exact ⟨⟨e, rfl⟩, rfl⟩
      | none =>
        cases hc : env.commit with
        | some e => exact ⟨⟨e, rfl⟩, rfl⟩
        | none =>
          exfalso
          simp [hasFailure, hseed, hread, hrw, hc] at h

/-! ## Verified properties -/

/-- C1: blast-radius assessment classifies risk by the spec's rules: no
dependencies and no DecisionMemory records is SAFE; dependent nodes all
LOW (and no active rejection overriding) is LOW; some MEDIUM dependent
node, none HIGH (and no active rejection) is MEDIUM; a HIGH dependent
node or an unresolved REJECTED record with no later approval is CRITICAL.
`deps` is the 2-hop neighborhood handed to the checker. -/
theorem blast_radius_classification (deps : List DepNode)
    (memory : List DecisionMemory) :
    (deps = [] → memory = [] →
      (BlastRadiusChecker.check deps memory).risk = .SAFE) ∧
    (deps ≠ [] → (∀ d ∈ deps, d.criticality = .LOW) →
      (∀ r ∈ memory, activeRejection r = false) →
      (BlastRadiusChecker.check deps memory).risk = .LOW) ∧
    ((∃ d ∈ deps, d.criticality = .MEDIUM) →
      (∀ d ∈ deps, d.criticality ≠ .HIGH) →
      (∀ r ∈ memory, activeRejection r = false) →
      (BlastRadiusChecker.check deps memory).risk = .MEDIUM) ∧
    (((∃ d ∈ deps, d.criticality = .HIGH) ∨
        (∃ r ∈ memory, activeRejection r = true)) →
      (BlastRadiusChecker.check deps memory).risk = .CRITICAL) := by
  refine ⟨?_, ?_, ?_, ?_⟩
  · rintro rfl rfl
    simp [BlastRadiusChecker.check]
  · intro hne hlow hmem
    have hhigh : deps.filter (fun d => decide (d.criticality = .HIGH)) = [] :=
      List.filter_eq_nil_iff.mpr (fun d hd => by simp [hlow d hd])
    have hmed : deps.filter (fun d => decide (d.criticality = .MEDIUM)) = [] :=
      List.filter_eq_nil_iff.mpr (fun d hd => by simp [hlow d hd])
    have hact : memory.filter activeRejection = [] :=
      List.filter_eq_nil_iff.mpr (fun r hr => by simp [hmem r hr])
    simp [BlastRadiusChecker.check, hhigh, hmed, hact, hne]
  · rintro ⟨d, hd, hdm⟩ hnohigh hmem
    have hhigh : deps.filter (fun d => decide (d.criticality = .HIGH)) = [] :=
      List.filter_eq_nil_iff.mpr (fun d hd => by simp [hnohigh d hd])
    have hact : memory.filter activeRejection = [] :=
      List.filter_eq_nil_iff.mpr (fun r hr => by simp [hmem r hr])
    have hdeps : deps ≠ [] := List.ne_nil_of_mem hd
    have hmed : deps.filter (fun d => decide (d.criticality = .MEDIUM)) ≠ [] :=
      List.ne_nil_of_mem (List.mem_filter.mpr ⟨hd, by simp [hdm]⟩)
    simp [BlastRadiusChecker.check, hhigh, hact, hdeps, hmed]
  · intro h
    have hcrit :
        deps.filter (fun d => decide (d.criticality = .HIGH)) ≠ [] ∨
        memory.filter activeRejection ≠ [] := by
      rcases h with ⟨d, hd, hdm⟩ | ⟨r, hr, hra⟩
      · exact Or.inl (List.ne_nil_of_mem (List.mem_filter.mpr ⟨hd, by simp [hdm]⟩))
      · exact Or.inr (List.ne_nil_of_mem (List.mem_filter.mpr ⟨hr, hra⟩))
    rcases hcrit with hc | hc <;> simp [BlastRadiusChecker.check, hc]

/-- C1 witness: a resource with no edges and no memory is SAFE, and one
with a HIGH database dependency one hop away is CRITICAL. -/
theorem blast_radius_classification_witness :
    (BlastRadiusChecker.check [] []).risk = .SAFE ∧
    (BlastRadiusChecker.check [db1] []).risk = .CRITICAL ∧
    (BlastRadiusChecker.check [] [aliceRejection]).risk = .CRITICAL :=
  ⟨(blast_radius_classification [] []).1 rfl rfl,
   (blast_radius_classification [db1] []).2.2.2
     (Or.inl ⟨db1, List.mem_cons_self db1 [], rfl⟩),
   (blast_radius_classification [] [aliceRejection]).2.2.2
     (Or.inr ⟨aliceRejection, List.mem_cons_self aliceRejection [], rfl⟩)⟩

/-- C6: the reasons list is the dependency-derived entries (HIGH, then
MEDIUM, naming type and hop distance) followed by the active-rejection
entries (naming who, when, why); in particular, with a HIGH dependency
present the first reason entry names a HIGH dependency. -/
theorem blast_radius_reasons_order (deps : List DepNode)
    (memory : List DecisionMemory) :
    (BlastRadiusChecker.check deps memory).reasons =
      ((deps.filter (fun d => decide (d.criticality = .HIGH))).map
          BlastRadiusChecker.depReason ++
        (deps.filter (fun d => decide (d.criticality = .MEDIUM))).map
          BlastRadiusChecker.depReason) ++
      (memory.filter activeRejection).map BlastRadiusChecker.rejectionReason ∧
    ((∃ d ∈ deps, d.criticality = .HIGH) →
      ∃ d ∈ deps, d.criticality = .HIGH ∧
        (BlastRadiusChecker.check deps memory).reasons.head? =
          some (BlastRadiusChecker.depReason d)) := by
  constructor
  · simp [BlastRadiusChecker.check, List.append_assoc]
  · rintro ⟨d, hd, hdm⟩
    have hne : deps.filter (fun d => decide (d.criticality = .HIGH)) ≠ [] :=
      List.ne_nil_of_mem (List.mem_filter.mpr ⟨hd, by simp [hdm]⟩)
    obtain ⟨x, hx, hpx, hhead⟩ :=
      head_filter_mem (fun d : DepNode => decide (d.criticality = Criticality.HIGH))
        deps hne
    refine ⟨x, hx, by simpa using hpx, ?_⟩
    have hreasons :
        (BlastRadiusChecker.check deps memory).reasons =
          (deps.filter (fun d => decide (d.criticality = .HIGH))).map
              BlastRadiusChecker.depReason ++
            ((deps.filter (fun d => decide (d.criticality = .MEDIUM))).map
                BlastRadiusChecker.depReason ++
              (memory.filter activeRejection).map
                BlastRadiusChecker.rejectionReason) := by
      simp [BlastRadiusChecker.check]
    rw [hreasons]
    cases hf : deps.filter (fun d => decide (d.criticality = .HIGH)) with
    | nil => exact absurd hf hne
    | cons a t =>
      rw [hf] at hhead
      simp only [List.head?_cons, Option.some.injEq] at hhead
      simp [hhead]

/-- C6 witness: with the HIGH dependency `db1` and a MEDIUM dependency,
the reason entries list `db1` first and rejections last. -/
theorem blast_radius_reasons_order_witness :
    (BlastRadiusChecker.check [lam1, db1] [aliceRejection]).reasons =
      (([db1].map BlastRadiusChecker.depReason) ++
        ([lam1].map BlastRadiusChecker.depReason)) ++
      ([aliceRejection].map BlastRadiusChecker.rejectionReason) ∧
    ∃ d ∈ [lam1, db1], d.criticality = .HIGH ∧
      (BlastRadiusChecker.check [lam1, db1] [aliceRejection]).reasons.head? =
        some (BlastRadiusChecker.depReason d) :=
  ⟨(blast_radius_reasons_order [lam1, db1] [aliceRejection]).1,
   (blast_radius_reasons_order [lam1, db1] [aliceRejection]).2
     ⟨db1, by simp [lam1, db1], rfl⟩⟩

/-- C2: on any pipeline step failure the run transitions to `error` with
`done = true` and a non-null cause, and the Finding's lifecycle status is
not mutated away from its pre-pipeline value. -/
theorem pipeline_failure_surfaced (env : StepOutcomes) (f : Finding) (n : ℕ)
    (h : hasFailure env = true) :
    (RemediationPipeline.run env f n).1.step = .error ∧
    (RemediationPipeline.run env f n).1.done = true ∧
    (RemediationPipeline.run env f n).1.error ≠ none ∧
    (RemediationPipeline.run env f n).2.lifecycle_status =
      f.lifecycle_status := by
  obtain ⟨⟨e, he⟩, hf⟩ := run_failure_cases env f n h
  rw [he, hf]
  exact ⟨rfl, rfl, by simp [RemediationPipeline.failProgress], rfl⟩

/-- C2 witness: a rewrite timeout ends the run in the error state with the
cause recorded and the finding untouched. -/
theorem pipeline_failure_surfaced_witness :
    (RemediationPipeline.run rewriteTimeout detectedFinding 3).1.step =
        .error ∧
    (RemediationPipeline.run rewriteTimeout detectedFinding 3).1.done =
        true ∧
    (RemediationPipeline.run rewriteTimeout detectedFinding 3).1.error ≠
        none ∧
    (RemediationPipeline.run rewriteTimeout detectedFinding 3).2.lifecycle_status =
        detectedFinding.lifecycle_status :=
  pipeline_failure_surfaced rewriteTimeout detectedFinding 3 rfl

/-- C4: starting the pipeline for a resource id that already has a
non-done progress entry is a no-op: the existing progress is returned and
the registry (hence the set of running tasks) is unchanged. -/
theorem pipeline_single_flight (registry : List (String × PipelineProgress))
    (rid : String) (p : PipelineProgress)
    (hfound : registry.lookup rid = some p) (hrun : p.done = false) :
    FindingRegistry.startPipeline registry rid = (p, registry) := by
  unfold FindingRegistry.startPipeline
  rw [hfound]
  simp [hrun]

/-- C4 witness: a second start call for a resource with an in-flight run
returns the same progress snapshot and leaves the registry unchanged. -/
theorem pipeline_single_flight_witness :
    FindingRegistry.startPipeline [("i-029da6afe1826bbba", runningProgress)]
        "i-029da6afe1826bbba" =
      (runningProgress, [("i-029da6afe1826bbba", runningProgress)]) :=
  pipeline_single_flight [("i-029da6afe1826bbba", runningProgress)]
    "i-029da6afe1826bbba" runningProgress rfl rfl

/-- C5: approve or reject outside `pr_ready` fails with
`InvalidTransition` and produces no new state; reject from `pr_ready`
appends exactly one DecisionMemory record and leaves the Finding
`rejected`. -/
theorem approve_reject_guarded (st : FindingRegistry.RegistryState)
    (reason rejectedBy : String) :
    (st.finding.lifecycle_status ≠ .pr_ready →
      FindingRegistry.approve st = Except.error .InvalidTransition ∧
      FindingRegistry.reject st reason rejectedBy =
        Except.error .InvalidTransition) ∧
    (st.finding.lifecycle_status = .pr_ready →
      ∃ st', FindingRegistry.reject st reason rejectedBy = Except.ok st' ∧
        st'.memory.length = st.memory.length + 1 ∧
        st'.finding.lifecycle_status = .rejected) := by
  constructor
  · intro h
    constructor
    · unfold FindingRegistry.approve
      rw [if_neg h]
    · unfold FindingRegistry.reject
      rw [if_neg h]
  · intro h
    unfold FindingRegistry.reject
    rw [if_pos h]
    exact ⟨_, rfl, by simp, rfl⟩

/-- C5 witness: approve and reject on a `detected` finding fail with
`InvalidTransition`; reject on a `pr_ready` finding adds one memory
record and marks the finding rejected. -/
theorem approve_reject_guarded_witness :
    (FindingRegistry.approve detectedState =
        Except.error .InvalidTransition ∧
      FindingRegistry.reject detectedState "too risky" "alice" =
        Except.error .InvalidTransition) ∧
    ∃ st', FindingRegistry.reject readyState "peak traffic" "alice" =
        Except.ok st' ∧
      st'.memory.length = readyState.memory.length + 1 ∧
      st'.finding.lifecycle_status = .rejected :=
  ⟨(approve_reject_guarded detectedState "too risky" "alice").1
      (by simp [detectedState, detectedFinding]),
   (approve_reject_guarded readyState "peak traffic" "alice").2 rfl⟩

/-- C7: the change request opened during the committing step is a draft if
and only if the finding's blast risk is CRITICAL; every other risk level
opens it normally. -/
theorem create_pr_draft_iff_critical (f : Finding) (n : ℕ) :
    ((PRCreator.create_pr f n).draft = true ↔ f.blast_risk = .CRITICAL) ∧
    (∀ r : BlastRisk, r ≠ .CRITICAL → f.blast_risk = r →
      (PRCreator.create_pr f n).draft = false) := by
  constructor
  · simp [PRCreator.create_pr]
  · intro r hr hf
    simp [PRCreator.create_pr, hf, hr]

/-- C7 witness: a CRITICAL finding opens a draft change request; a SAFE
finding opens a normal one. -/
theorem create_pr_draft_iff_critical_witness :
    (PRCreator.create_pr criticalFinding 7).draft = true ∧
    (PRCreator.create_pr detectedFinding 8).draft = false :=
  ⟨(create_pr_draft_iff_critical criticalFinding 7).1.mpr rfl,
   (create_pr_draft_iff_critical detectedFinding 8).2 .SAFE
     (by simp) rfl⟩

/-- C3: the lifecycle state presented to observers follows the state
machine: merged change request is `approved`, closed is `rejected`, an
open change request (its url present, neither merged nor closed) is
`pr_ready`, a finding under assessment is `analyzing`, anything else is
`detected`; the result is always exactly one of the five states; and the
backend pipeline moves a finding into `pr_ready` only on a run with no
step failure. -/
theorem trigger_status_state_machine (f : BackendFinding) (now : String) :
    (f.pr_status = some .merged →
      (mapFindingToTrigger f now).status = .approved) ∧
    (f.pr_status = some .closed →
      (mapFindingToTrigger f now).status = .rejected) ∧
    (f.pr_status ≠ some .merged → f.pr_status ≠ some .closed →
      jsTruthy f.pr_url = true →
      (mapFindingToTrigger f now).status = .pr_ready) ∧
    (f.pr_status ≠ some .merged → f.pr_status ≠ some .closed →
      jsTruthy f.pr_url = false → f.status = some "analyzing" →
      (mapFindingToTrigger f now).status = .analyzing) ∧
    (f.pr_status ≠ some .merged → f.pr_status ≠ some .closed →
      jsTruthy f.pr_url = false → f.status ≠ some "analyzing" →
      (mapFindingToTrigger f now).status = .detected) ∧
    ((mapFindingToTrigger f now).status = .detected ∨
      (mapFindingToTrigger f now).status = .analyzing ∨
      (mapFindingToTrigger f now).status = .pr_ready ∨
      (mapFindingToTrigger f now).status = .approved ∨
      (mapFindingToTrigger f now).status = .rejected) ∧
    (∀ (env : StepOutcomes) (g : Finding) (n : ℕ),
      (RemediationPipeline.run env g n).2.lifecycle_status = .pr_ready →
      hasFailure env = false ∨ g.lifecycle_status = .pr_ready) := by
  have hst : (mapFindingToTrigger f now).status = resolveTriggerStatus f := rfl
  refine ⟨?_, ?_, ?_, ?_, ?_, ?_, ?_⟩
  · intro h
    rw [hst]; unfold resolveTriggerStatus
    rw [if_pos h]
  · intro h
    rw [hst]; unfold resolveTriggerStatus
    rw [if_neg (by simp [h]), if_pos h]
  · intro h1 h2 h3
    rw [hst]; unfold resolveTriggerStatus
    rw [if_neg h1, if_neg h2, if_pos h3]
  · intro h1 h2 h3 h4
    rw [hst]; unfold resolveTriggerStatus
    rw [if_neg h1, if_neg h2, if_neg (by simp [h3]), if_pos h4]
  · intro h1 h2 h3 h4
    rw [hst]; unfold resolveTriggerStatus
    rw [if_neg h1, if_neg h2, if_neg (by simp [h3]), if_neg h4]
  · rw [hst]
    cases h : resolveTriggerStatus f <;> simp
  · intro env g n hpr
    by_cases hf : hasFailure env = true
    · have h2 := (run_failure_cases env g n hf).2
      rw [h2] at hpr
      exact Or.inr hpr
    · exact Or.inl (by simpa using hf)

/-- C3 witness: a merged finding presents as approved, an open-PR finding
as pr_ready, and a finding under assessment as analyzing. -/
theorem trigger_status_state_machine_witness :
    (mapFindingToTrigger mergedFinding "t0").status = .approved ∧
    (mapFindingToTrigger openPrFinding "t0").status = .pr_ready ∧
    (mapFindingToTrigger analyzingFinding "t0").status = .analyzing :=
  ⟨(trigger_status_state_machine mergedFinding "t0").1 rfl,
   (trigger_status_state_machine openPrFinding "t0").2.2.1
     (by simp [openPrFinding]) (by simp [openPrFinding]) rfl,
   (trigger_status_state_machine analyzingFinding "t0").2.2.2.1
     (by simp [analyzingFinding]) (by simp [analyzingFinding]) rfl rfl⟩

/-- C8: `fetchFinding` returns null exactly on HTTP 404; any other
non-2xx response throws an error carrying the response detail (with a
status fallback when the body is empty); a 2xx response returns the
parsed finding. -/
theorem fetch_finding_taxonomy (r : HttpResponse) :
    (fetchFinding r = Except.ok none ↔ r.status = 404) ∧
    (r.status ≠ 404 → ¬ responseOk r →
      fetchFinding r = Except.error
        (if r.body = "" then "Request failed: " ++ toString r.status
         else r.body)) ∧
    (responseOk r → fetchFinding r = Except.ok (some r.payload)) := by
  refine ⟨⟨?_, ?_⟩, ?_, ?_⟩
  · intro h
    by_contra h404
    unfold fetchFinding at h
    rw [if_neg h404] at h
    by_cases hok : responseOk r
    · rw [if_neg (not_not_intro hok)] at h
      exact absurd h (by simp)
    · rw [if_pos hok] at h
      exact absurd h (by simp)
  · intro h404
    unfold fetchFinding
    rw [if_pos h404]
  · intro h404 hnok
    unfold fetchFinding
    rw [if_neg h404, if_pos hnok]
  · intro hok
    have h404 : r.status ≠ 404 := by
      intro h
      rcases hok with ⟨h1, h2⟩
      rw [h] at h2
      omega
    unfold fetchFinding
    rw [if_neg h404, if_neg (not_not_intro hok)]

/-- C8 witness: a 404 yields null, a 500 with body yields an error
carrying that body, and a 200 yields the parsed finding. -/
theorem fetch_finding_taxonomy_witness :
    fetchFinding notFoundResponse = Except.ok none ∧
    fetchFinding serverErrorResponse = Except.error
      (if serverErrorResponse.body = "" then
        "Request failed: " ++ toString serverErrorResponse.status
       else serverErrorResponse.body) ∧
    fetchFinding okResponse = Except.ok (some okResponse.payload) :=
  ⟨(fetch_finding_taxonomy notFoundResponse).1.mpr rfl,
   (fetch_finding_taxonomy serverErrorResponse).2.1 (by decide) (by decide),
   (fetch_finding_taxonomy okResponse).2.2 (by decide)⟩

/-- C9: when a backend finding carries no `blast_risk`, the UI mapping
defaults the presented risk to MEDIUM (never SAFE): the trigger's
`blastRisk` is MEDIUM and the copilot summary reports MEDIUM. -/
theorem missing_blast_risk_defaults_medium (f : BackendFinding)
    (now : String) (h : f.blast_risk = none) :
    (mapFindingToTrigger f now).blastRisk = .MEDIUM ∧
    ∃ s, buildCopilotSummary f = s ++ "Blast risk is MEDIUM." := by
  constructor
  · show f.blast_risk.getD .MEDIUM = .MEDIUM
    rw [h]
    rfl
  · refine ⟨f.name ++ " appears idle. Recommended downsize from " ++
      f.current_type ++ " to " ++ f.recommended_type ++ " saves ~$" ++
      jsNumToString (f.monthly_savings_usd.getD 0) ++ "/mo. ", ?_⟩
    unfold buildCopilotSummary
    rw [h]
    rfl

/-- C9 witness: a concrete finding without `blast_risk` presents MEDIUM. -/
theorem missing_blast_risk_defaults_medium_witness :
    (mapFindingToTrigger noRiskFinding "2026-02-20T00:00:00Z").blastRisk =
        .MEDIUM ∧
    ∃ s, buildCopilotSummary noRiskFinding = s ++ "Blast risk is MEDIUM." :=
  missing_blast_risk_defaults_medium noRiskFinding "2026-02-20T00:00:00Z" rfl

/-- C10: the savings-overview counts partition the trigger list: approved
plus rejected plus pending triggers equal the list length, and after
removing the fixed baselines (14 approved, 19 total) the published counts
balance. -/
theorem savings_overview_partition (ts : List Trigger) :
    (ts.filter (fun t => decide (t.status = .approved))).length +
      (ts.filter (fun t => decide (t.status = .rejected))).length +
      (ts.filter (fun t =>
        decide (t.status ≠ .approved ∧ t.status ≠ .rejected))).length =
      ts.length ∧
    ((buildSavingsOverview ts).approvedCount - 14) +
      (buildSavingsOverview ts).rejectedCount +
      (buildSavingsOverview ts).pendingCount =
      (buildSavingsOverview ts).totalFindings - 19 := by
  have hpart :
      (ts.filter (fun t => decide (t.status = .approved))).length +
        (ts.filter (fun t => decide (t.status = .rejected))).length +
        (ts.filter (fun t =>
          decide (t.status ≠ .approved ∧ t.status ≠ .rejected))).length =
        ts.length :=
    filter_three_way (fun t : Trigger => t.status = .approved)
      (fun t : Trigger => t.status = .rejected) ts
      (fun a h => by
        have h1 : a.status = TriggerStatus.approved := h.1
        have h2 : a.status = TriggerStatus.rejected := h.2
        rw [h1] at h2
        cases h2)
  refine ⟨hpart, ?_⟩
  have ha : (buildSavingsOverview ts).approvedCount =
      14 + (ts.filter (fun t => decide (t.status = .approved))).length := rfl
  have hr : (buildSavingsOverview ts).rejectedCount =
      (ts.filter (fun t => decide (t.status = .rejected))).length := rfl
  have hp : (buildSavingsOverview ts).pendingCount =
      (ts.filter (fun t =>
        decide (t.status ≠ .approved ∧ t.status ≠ .rejected))).length := rfl
  have ht : (buildSavingsOverview ts).totalFindings = 19 + ts.length := rfl
  rw [ha, hr, hp, ht]
  omega

end WasteHunter
